import Mathlib

/-!
Verification development for the saas-starter-kit repository.

The shown sources are React/Next.js components (dashboard sidebar, dashboard
header, dashboard layout, public header, route-level layouts, dashboard pages)
plus a NextAuth configuration file.  This file gives a shallow embedding of
those components as pure Lean functions producing a `Node` render tree, and
proves the claimed properties about them.  Machine numbers (scroll offsets)
are modelled as `Nat`; JavaScript truthiness of numbers is `≠ 0`, of optional
booleans is `Bool`.
-/

namespace SaasStarter

/-- A menu entry of `DASHBOARD_MENU` (from `shared/constants/router`, not part
of the shown sources): a `title`, a `url` and an `icon` component, here
identified by its rendered tag name. -/
structure MenuItem where
  title : String
  url : String
  icon : String
deriving DecidableEq, Repr

/-- The placeholder user display object: exactly the three fields `name`,
`email` and `avatar`, as in `sidebar.tsx` and the dashboard page. -/
structure User where
  name : String
  email : String
  avatar : String
deriving DecidableEq, Repr

mutual

/-- A rendered element tree.  `elem` carries the tag, the class-token list,
the remaining string-valued attributes and the children; `text` is a text
node.  The external `ProfileDropdown` component is kept as its own
constructor because the claims track which `User` values flow into it. -/
inductive Node where
  | elem (tag : String) (classes : List String) (attrs : List (String × String)) (children : NodeList)
  | text (s : String)
  | profileDropdown (user : User) (side : String)

/-- Children of an element, as a mutually inductive list so that structural
recursion over trees is available. -/
inductive NodeList where
  | nil
  | cons (hd : Node) (tl : NodeList)

end

/-- Convert an ordinary list of nodes into a `NodeList`. -/
def nl : List Node → NodeList
  | [] => .nil
  | c :: cs => .cons c (nl cs)

/-- Convert a `NodeList` back to an ordinary list. -/
def NodeList.toList : NodeList → List Node
  | .nil => []
  | .cons c cs => c :: cs.toList

/-- Modelled from the spec: the `cn` class-name utility from
`shared/lib/utils` is not among the shown sources; per the spec it performs
"CSS utility composition", composing its truthy class arguments, in order,
into one class list.  A `none` argument is a falsy (skipped) argument. -/
def cn (parts : List (Option (List String))) : List String :=
  (parts.filterMap id).flatten

/-- JavaScript `&&` between a boolean guard and a class-string value: the
value when the guard is truthy, falsy (skipped) otherwise. -/
def jsAnd (b : Bool) (v : List String) : Option (List String) :=
  if b then some v else none

/-- JavaScript `||` between two numbers: the left one when it is truthy
(non-zero), the right one otherwise. -/
def jsOrNat (a b : Nat) : Nat :=
  if a ≠ 0 then a else b

/-- The scroll positions the header's scroll callback reads from the
document. -/
structure DocumentScroll where
  bodyScrollTop : Nat
  documentElementScrollTop : Nat
deriving DecidableEq, Repr

/-- The component state of `DashboardHeader`: its single `useState` cell,
the scroll `offset`. -/
structure HeaderState where
  offset : Nat
deriving DecidableEq, Repr

/-- `React.useState(0)`: the header state at the initial render. -/
def initialHeaderState : HeaderState :=
  { offset := 0 }

/-- The `onScroll` callback of `DashboardHeader`: it sets `offset` to
`document.body.scrollTop || document.documentElement.scrollTop` and touches
nothing else of the component state. -/
def onScroll (doc : DocumentScroll) (_s : HeaderState) : HeaderState :=
  { offset := jsOrNat doc.bodyScrollTop doc.documentElementScrollTop }

/-- A registered document event listener: the event type and the identity of
the handler closure. -/
structure Listener where
  eventType : String
  handlerId : Nat
deriving DecidableEq, Repr

/-- `document.addEventListener`: appends the listener unless the very same
listener is already registered (the DOM deduplicates identical
registrations). -/
def addEventListener (ls : List Listener) (l : Listener) : List Listener :=
  if l ∈ ls then ls else ls ++ [l]

/-- `document.removeEventListener`: removes the matching registration, if
any. -/
def removeEventListener (ls : List Listener) (l : Listener) : List Listener :=
  ls.erase l

/-- The header's mount effect: registers its `onScroll` closure (identified
by `h`) as a `"scroll"` listener on the document. -/
def headerMountEffect (ls : List Listener) (h : Nat) : List Listener :=
  addEventListener ls ⟨"scroll", h⟩

/-- The cleanup returned by the header's mount effect: removes that same
`"scroll"` listener. -/
def headerMountCleanup (ls : List Listener) (h : Nat) : List Listener :=
  removeEventListener ls ⟨"scroll", h⟩

/-- The first, unconditional class string of the header. -/
def headerBaseClasses : List String :=
  ["bg-background", "flex", "h-16", "items-center", "gap-3", "p-4", "sm:gap-4"]

/-- The classes added by `fixed && "header-fixed peer/header fixed z-50
w-[inherit] rounded-md"`. -/
def headerFixedClasses : List String :=
  ["header-fixed", "peer/header", "fixed", "z-50", "w-[inherit]", "rounded-md"]

/-- The ternary `offset > 10 && fixed ? "shadow-sm" : "shadow-none"`. -/
def headerShadowClass (fixed : Bool) (offset : Nat) : String :=
  if decide (offset > 10) && fixed then "shadow-sm" else "shadow-none"

/-- The `cn(...)` argument list of the header, in source order: base classes,
the fixed-only classes, the shadow ternary, then the caller's `className`
prop. -/
def headerClasses (fixed : Bool) (offset : Nat) (className : List String) : List String :=
  cn [some headerBaseClasses,
      jsAnd fixed headerFixedClasses,
      some [headerShadowClass fixed offset],
      some className]

/-- The element returned by `DashboardHeader` at a given state: a `header`
element with the computed class list, containing the `SidebarTrigger`, the
`Separator` and the children prop. -/
def DashboardHeaderView (fixed : Bool) (offset : Nat) (className : List String)
    (children : List Node) : Node :=
  .elem "header" (headerClasses fixed offset className) []
    (nl (.elem "SidebarTrigger" ["scale-125", "sm:scale-100"] [("variant", "outline")] .nil ::
         .elem "Separator" ["h-6"] [("orientation", "vertical")] .nil ::
         children))

/-- The class list of the root element of a rendered node. -/
def classListOf : Node → List String
  | .elem _ cs _ _ => cs
  | _ => []

/-- The placeholder user constructed inside `DashboardSidebar`
(`sidebar.tsx`). -/
def sidebarUser : User :=
  { name := "John Doe"
    email := "6Kt0P@example.com"
    avatar := "https://github.com/brunorocha.png" }

/-- One rendered entry of the sidebar content menu: for a `DASHBOARD_MENU`
entry, a `SidebarMenuItem` keyed by the title, holding a `SidebarMenuButton`
whose `Link` targets `item.url` and shows the icon and a `span` with
`item.title`. -/
def sidebarMenuItemView (item : MenuItem) : Node :=
  .elem "SidebarMenuItem" [] [("key", item.title)]
    (nl [.elem "SidebarMenuButton" [] [("asChild", "true")]
      (nl [.elem "Link" [] [("href", item.url)]
        (nl [.elem item.icon [] [] .nil,
             .elem "span" [] [] (nl [.text item.title])])])])

/-- The `SidebarHeader` section of the sidebar: the "App name" link to
`/dashboard`. -/
def sidebarHeaderView : Node :=
  .elem "SidebarHeader" [] []
    (nl [.elem "SidebarMenu" [] []
      (nl [.elem "SidebarMenuItem" [] []
        (nl [.elem "SidebarMenuButton" [] [("asChild", "true")]
          (nl [.elem "Link" [] [("href", "/dashboard")]
            (nl [.elem "LayoutDashboardIcon" [] [] .nil,
                 .elem "span" [] [] (nl [.text "App name"])])])])])])

/-- The `SidebarFooter` section of the sidebar: the `ProfileDropdown` with
the placeholder user and `side="right"`. -/
def sidebarFooterView : Node :=
  .elem "SidebarFooter" [] []
    (nl [.elem "SidebarMenu" [] []
      (nl [.elem "SidebarMenuItem" [] []
        (nl [.profileDropdown sidebarUser "right"])])])

/-- The element returned by `DashboardSidebar`, with the configured menu as a
parameter: a floating icon-collapsible `Sidebar` holding the header section,
a content section that maps `sidebarMenuItemView` over the menu, and the
footer section. -/
def DashboardSidebarView (menu : List MenuItem) : Node :=
  .elem "Sidebar" [] [("collapsible", "icon"), ("variant", "floating")]
    (nl [sidebarHeaderView,
         .elem "SidebarContent" [] []
           (nl [.elem "SidebarGroup" [] []
             (nl [.elem "SidebarGroupContent" [] []
               (nl [.elem "SidebarMenu" [] [] (nl (menu.map sidebarMenuItemView))])])]),
         sidebarFooterView])

/-- Extract the menu items of the sidebar's content section: the children of
the `SidebarMenu` inside `SidebarContent → SidebarGroup →
SidebarGroupContent`, between the header and footer sections. -/
def sidebarContentMenuItems : Node → List Node
  | .elem "Sidebar" _ _
      (.cons _hdr
        (.cons (.elem "SidebarContent" _ _
          (.cons (.elem "SidebarGroup" _ _
            (.cons (.elem "SidebarGroupContent" _ _
              (.cons (.elem "SidebarMenu" _ _ items) .nil)) .nil)) .nil))
          (.cons _ftr .nil))) => items.toList
  | _ => []

/-- The link target of a rendered sidebar menu item. -/
def menuItemHref : Node → Option String
  | .elem "SidebarMenuItem" _ _
      (.cons (.elem "SidebarMenuButton" _ _
        (.cons (.elem "Link" _ [("href", u)] _) .nil)) .nil) => some u
  | _ => none

/-- The visible label of a rendered sidebar menu item: the text inside its
`span`. -/
def menuItemLabel : Node → Option String
  | .elem "SidebarMenuItem" _ _
      (.cons (.elem "SidebarMenuButton" _ _
        (.cons (.elem "Link" _ _
          (.cons _icon
            (.cons (.elem "span" _ _ (.cons (.text t) .nil)) .nil))) .nil)) .nil) => some t
  | _ => none

/-- The class list of the `div#content` shell in `DashboardLayout`
(`layout.tsx`). -/
def contentShellClasses : List String :=
  ["ml-auto", "w-full", "max-w-full",
   "peer-data-[state=collapsed]:w-[calc(100%-var(--sidebar-width-icon)-1rem)]",
   "peer-data-[state=expanded]:w-[calc(100%-var(--sidebar-width))]",
   "sm:transition-[width]", "sm:duration-200", "sm:ease-linear",
   "flex", "h-svh", "flex-col",
   "group-data-[scroll-locked=1]/body:h-full",
   "has-[main.fixed-main]:group-data-[scroll-locked=1]/body:h-svh"]

/-- The element returned by `DashboardLayout` (`layout.tsx`): a
`SidebarProvider` holding the sidebar and the `div#content` shell around the
children. -/
def DashboardLayoutView (menu : List MenuItem) (children : Node) : Node :=
  .elem "SidebarProvider" [] []
    (nl [DashboardSidebarView menu,
         .elem "div" contentShellClasses [("id", "content")] (nl [children])])

/-- The route-level dashboard `Layout`: its body is exactly
`<DashboardLayout>{children}</DashboardLayout>`. -/
def routeDashboardLayout (menu : List MenuItem) (children : Node) : Node :=
  DashboardLayoutView menu children

/-- The route-level public `Layout`: its body is exactly
`<PublicLayout>{children}</PublicLayout>`.  `PublicLayout` is not among the
shown sources, so its render function is a parameter. -/
def routePublicLayout (publicLayoutRender : Node → Node) (children : Node) : Node :=
  publicLayoutRender children

/-- Modelled from the spec: a pure forwarding wrapper, a layout that
"forwards these props" to the wrapped component and adds no other markup,
props, or state. -/
def forwardingWrapper (f : Node → Node) (children : Node) : Node :=
  f children

/-- The element returned by `PublicHeader` (the public marketing header). -/
def publicHeaderView : Node :=
  .elem "header"
    ["sticky", "top-0", "z-40", "w-full", "border-b", "bg-background/95",
     "backdrop-blur", "supports-[backdrop-filter]:bg-background/60"] []
    (nl [.elem "div" ["container", "flex", "h-16", "items-center", "justify-between"] []
      (nl [.elem "div" ["flex", "items-center", "gap-6", "md:gap-10"] []
        (nl [.elem "Link" ["flex", "items-center", "space-x-2"] [("href", "/")]
          (nl [.elem "span" ["font-bold", "text-xl"] [] (nl [.text "App name"])]),
             .elem "nav" ["hidden", "md:flex", "gap-6"] []
          (nl [.elem "Link"
                 ["flex", "items-center", "text-sm", "font-medium",
                  "text-muted-foreground", "transition-colors", "hover:text-foreground"]
                 [("href", "/features")] (nl [.text "Features"]),
               .elem "Link"
                 ["flex", "items-center", "text-sm", "font-medium",
                  "text-muted-foreground", "transition-colors", "hover:text-foreground"]
                 [("href", "/pricing")] (nl [.text "Pricing"]),
               .elem "Link"
                 ["flex", "items-center", "text-sm", "font-medium",
                  "text-muted-foreground", "transition-colors", "hover:text-foreground"]
                 [("href", "/docs")] (nl [.text "Documentation"])])]),
           .elem "div" ["hidden", "items-center", "gap-4", "md:flex"] []
        (nl [.elem "Button" [] [("variant", "ghost"), ("asChild", "true")]
               (nl [.elem "Link" [] [("href", "/signin")] (nl [.text "Sign in"])]),
             .elem "Button" [] [("asChild", "true")]
               (nl [.elem "Link" [] [("href", "/signup")] (nl [.text "Get started"])]),
             .elem "Button" [] [("asChild", "true")]
               (nl [.elem "Link" [] [("href", "/dashboard")] (nl [.text "Dashboard"])])])])])

/-- The placeholder user constructed inside the dashboard page with the
profile dropdown (`DashboardPage`). -/
def dashboardPageUser : User :=
  { name := "John Doe"
    email := "6Kt0P@example.com"
    avatar := "https://github.com/brunorocha.png" }

/-- The `DashboardMain` wrapper around the page body; the component itself is
not among the shown sources, so it is kept as an opaque element. -/
def DashboardMainView (children : Node) : Node :=
  .elem "DashboardMain" [] [] (nl [children])

/-- The header rendered by the dashboard page with the profile dropdown: a
`DashboardHeader` (no `fixed`, no `className`) whose children are the
right-aligned `div` holding `ProfileDropdown` with `side="bottom"`. -/
def dashboardPageHeaderView (offset : Nat) : Node :=
  DashboardHeaderView false offset []
    [.elem "div" ["ml-auto", "flex", "items-center", "space-x-4"] []
      (nl [.profileDropdown dashboardPageUser "bottom"])]

/-- The fragment returned by the dashboard page with the profile dropdown,
at a given header scroll offset. -/
def dashboardPageView (offset : Nat) : Node :=
  .elem "Fragment" [] []
    (nl [dashboardPageHeaderView offset,
         DashboardMainView (.text "Dashboard")])

/-- The fragment returned by the plain dashboard page (the variant with no
profile dropdown in the header), at a given header scroll offset. -/
def dashboardPagePlainView (offset : Nat) : Node :=
  .elem "Fragment" [] []
    (nl [DashboardHeaderView false offset [] [],
         DashboardMainView (.text "Dashboard")])

/-- An identity provider of the NextAuth configuration; the auth file
imports exactly one, `Google`. -/
inductive AuthProvider where
  | google
deriving DecidableEq, Repr

/-- The shared prisma client imported from `shared/lib/prisma`. -/
inductive PrismaClientRef where
  | shared
deriving DecidableEq, Repr

/-- A session adapter value; the auth file builds one by applying
`PrismaAdapter` to a prisma client. -/
inductive SessionAdapter where
  | prismaAdapter (client : PrismaClientRef)
deriving DecidableEq, Repr

/-- The object literal passed to `NextAuth`. -/
structure NextAuthConfig where
  adapter : SessionAdapter
  providers : List AuthProvider
deriving DecidableEq, Repr

/-- The configuration the auth file passes to `NextAuth`:
`{ adapter: PrismaAdapter(prisma), providers: [Google] }`. -/
def authConfig : NextAuthConfig :=
  { adapter := .prismaAdapter .shared
    providers := [.google] }

mutual

/-- Collect every `User` value occurring anywhere in a rendered tree. -/
def usersOf : Node → List User
  | .elem _ _ _ cs => usersOfList cs
  | .text _ => []
  | .profileDropdown u _ => [u]

/-- Collect every `User` value occurring in a list of rendered trees. -/
def usersOfList : NodeList → List User
  | .nil => []
  | .cons c cs => usersOf c ++ usersOfList cs

end

mutual

/-- Collect every `ProfileDropdown` call in a rendered tree, as the pair of
its `user` and `side` props, in render order. -/
def dropdownCallsOf : Node → List (User × String)
  | .elem _ _ _ cs => dropdownCallsOfList cs
  | .text _ => []
  | .profileDropdown u s => [(u, s)]

/-- Collect every `ProfileDropdown` call in a list of rendered trees. -/
def dropdownCallsOfList : NodeList → List (User × String)
  | .nil => []
  | .cons c cs => dropdownCallsOf c ++ dropdownCallsOfList cs

end

/-! For the claim that no shown component contains an error path, the
component bodies are also embedded deeply, as terms of a small JSX
expression language that does have throwing and catching constructs, so that
"contains no error path" is a statement about the program text and "returns
a rendered value" a statement about its evaluation. -/

/-- An attribute value in a JSX body: a string literal, or the current menu
entry's `url` or `title` (inside the menu map of the sidebar). -/
inductive AttrVal where
  | lit (s : String)
  | itemUrlAttr
  | itemTitleAttr
deriving DecidableEq, Repr

mutual

/-- A JSX component body.  `childrenHole` is the `children` prop,
`menuMap body` is `DASHBOARD_MENU.map(item => body)`, `itemTitleText` and
`itemIconElem` are the uses of the current menu entry inside that map,
`dropdownCall` is a `ProfileDropdown` call, and `throwJs` / `catchJs` are
the error-path constructs (throwing, and try/catch) that the claim says
never occur. -/
inductive JsxExpr where
  | elem (tag : String) (classes : List String) (attrs : List (String × AttrVal)) (children : JsxList)
  | textLit (s : String)
  | itemTitleText
  | itemIconElem
  | childrenHole
  | dropdownCall (user : User) (side : String)
  | menuMap (body : JsxExpr)
  | throwJs (msg : String)
  | catchJs (body : JsxExpr) (handler : JsxExpr)

/-- A list of JSX child expressions. -/
inductive JsxList where
  | nil
  | cons (hd : JsxExpr) (tl : JsxList)

end

/-- Convert an ordinary list of JSX expressions into a `JsxList`. -/
def jl : List JsxExpr → JsxList
  | [] => .nil
  | e :: es => .cons e (jl es)

/-- The rendering environment of a JSX body: the `children` prop, the
configured menu, and the current menu entry inside a menu map. -/
structure RenderEnv where
  children : Node
  menu : List MenuItem
  item : MenuItem

/-- Evaluate an attribute value in an environment. -/
def evalAttr (env : RenderEnv) : AttrVal → String
  | .lit s => s
  | .itemUrlAttr => env.item.url
  | .itemTitleAttr => env.item.title

mutual

/-- Evaluate a JSX body to the list of nodes it contributes to its parent,
or to an error if a `throwJs` is reached. -/
def evalJsx (env : RenderEnv) : JsxExpr → Except String (List Node)
  | .elem t c a cs =>
      match evalJsxList env cs with
      | .ok ns => .ok [Node.elem t c (a.map fun p => (p.1, evalAttr env p.2)) (nl ns)]
      | .error m => .error m
  | .textLit s => .ok [.text s]
  | .itemTitleText => .ok [.text env.item.title]
  | .itemIconElem => .ok [.elem env.item.icon [] [] .nil]
  | .childrenHole => .ok [env.children]
  | .dropdownCall u s => .ok [.profileDropdown u s]
  | .menuMap body => evalMenuMap env env.menu body
  | .throwJs m => .error m
  | .catchJs body handler =>
      match evalJsx env body with
      | .ok ns => .ok ns
      | .error _ => evalJsx env handler
termination_by e => (sizeOf e, 0)

/-- Evaluate a list of JSX children, concatenating their contributions. -/
def evalJsxList (env : RenderEnv) : JsxList → Except String (List Node)
  | .nil => .ok []
  | .cons e es =>
      match evalJsx env e with
      | .ok ns =>
          match evalJsxList env es with
          | .ok ms => .ok (ns ++ ms)
          | .error m => .error m
      | .error m => .error m
termination_by es => (sizeOf es, 0)

/-- Evaluate the body of a menu map once per menu entry, concatenating the
results in menu order. -/
def evalMenuMap (env : RenderEnv) (items : List MenuItem) (body : JsxExpr) :
    Except String (List Node) :=
  match items with
  | [] => .ok []
  | it :: rest =>
      match evalJsx { env with item := it } body with
      | .ok ns =>
          match evalMenuMap env rest body with
          | .ok ms => .ok (ns ++ ms)
          | .error m => .error m
      | .error m => .error m
termination_by (sizeOf body, items.length + 1)

end

mutual

/-- A JSX body is error-free when it contains no `throwJs` and no `catchJs`
anywhere. -/
def errorFree : JsxExpr → Bool
  | .elem _ _ _ cs => errorFreeList cs
  | .menuMap body => errorFree body
  | .throwJs _ => false
  | .catchJs _ _ => false
  | _ => true

/-- All children of a list of JSX bodies are error-free. -/
def errorFreeList : JsxList → Bool
  | .nil => true
  | .cons e es => errorFree e && errorFreeList es

end


/-- The body of `DashboardHeader`, as a JSX term: the `header` element with
the computed classes, the trigger, the separator and the children prop. -/
def DashboardHeaderBody (fixed : Bool) (offset : Nat) (className : List String) : JsxExpr :=
  .elem "header" (headerClasses fixed offset className) []
    (jl [.elem "SidebarTrigger" ["scale-125", "sm:scale-100"] [("variant", .lit "outline")] .nil,
         .elem "Separator" ["h-6"] [("orientation", .lit "vertical")] .nil,
         .childrenHole])

/-- The body of the menu-map callback inside `DashboardSidebar`. -/
def sidebarMenuItemBody : JsxExpr :=
  .elem "SidebarMenuItem" [] [("key", .itemTitleAttr)]
    (jl [.elem "SidebarMenuButton" [] [("asChild", .lit "true")]
      (jl [.elem "Link" [] [("href", .itemUrlAttr)]
        (jl [.itemIconElem, .elem "span" [] [] (jl [.itemTitleText])])])])

/-- The body of `DashboardSidebar`, as a JSX term. -/
def DashboardSidebarBody : JsxExpr :=
  .elem "Sidebar" [] [("collapsible", .lit "icon"), ("variant", .lit "floating")]
    (jl [.elem "SidebarHeader" [] []
      (jl [.elem "SidebarMenu" [] []
        (jl [.elem "SidebarMenuItem" [] []
          (jl [.elem "SidebarMenuButton" [] [("asChild", .lit "true")]
            (jl [.elem "Link" [] [("href", .lit "/dashboard")]
              (jl [.elem "LayoutDashboardIcon" [] [] .nil,
                   .elem "span" [] [] (jl [.textLit "App name"])])])])])]),
         .elem "SidebarContent" [] []
      (jl [.elem "SidebarGroup" [] []
        (jl [.elem "SidebarGroupContent" [] []
          (jl [.elem "SidebarMenu" [] [] (jl [.menuMap sidebarMenuItemBody])])])]),
         .elem "SidebarFooter" [] []
      (jl [.elem "SidebarMenu" [] []
        (jl [.elem "SidebarMenuItem" [] []
          (jl [.dropdownCall sidebarUser "right"])])])])

/-- The body of `DashboardLayout`, as a JSX term; the `DashboardSidebar`
component call is kept as an element. -/
def DashboardLayoutBody : JsxExpr :=
  .elem "SidebarProvider" [] []
    (jl [.elem "DashboardSidebar" [] [] .nil,
         .elem "div" contentShellClasses [("id", .lit "content")] (jl [.childrenHole])])

/-- The body of the route-level dashboard `Layout`, as a JSX term. -/
def routeDashboardLayoutBody : JsxExpr :=
  .elem "DashboardLayout" [] [] (jl [.childrenHole])

/-- The body of the route-level public `Layout`, as a JSX term. -/
def routePublicLayoutBody : JsxExpr :=
  .elem "PublicLayout" [] [] (jl [.childrenHole])

/-- The body of `PublicHeader`, as a JSX term. -/
def PublicHeaderBody : JsxExpr :=
  .elem "header"
    ["sticky", "top-0", "z-40", "w-full", "border-b", "bg-background/95",
     "backdrop-blur", "supports-[backdrop-filter]:bg-background/60"] []
    (jl [.elem "div" ["container", "flex", "h-16", "items-center", "justify-between"] []
      (jl [.elem "div" ["flex", "items-center", "gap-6", "md:gap-10"] []
        (jl [.elem "Link" ["flex", "items-center", "space-x-2"] [("href", .lit "/")]
          (jl [.elem "span" ["font-bold", "text-xl"] [] (jl [.textLit "App name"])]),
             .elem "nav" ["hidden", "md:flex", "gap-6"] []
          (jl [.elem "Link"
                 ["flex", "items-center", "text-sm", "font-medium",
                  "text-muted-foreground", "transition-colors", "hover:text-foreground"]
                 [("href", .lit "/features")] (jl [.textLit "Features"]),
               .elem "Link"
                 ["flex", "items-center", "text-sm", "font-medium",
                  "text-muted-foreground", "transition-colors", "hover:text-foreground"]
                 [("href", .lit "/pricing")] (jl [.textLit "Pricing"]),
               .elem "Link"
                 ["flex", "items-center", "text-sm", "font-medium",
                  "text-muted-foreground", "transition-colors", "hover:text-foreground"]
                 [("href", .lit "/docs")] (jl [.textLit "Documentation"])])]),
           .elem "div" ["hidden", "items-center", "gap-4", "md:flex"] []
        (jl [.elem "Button" [] [("variant", .lit "ghost"), ("asChild", .lit "true")]
               (jl [.elem "Link" [] [("href", .lit "/signin")] (jl [.textLit "Sign in"])]),
             .elem "Button" [] [("asChild", .lit "true")]
               (jl [.elem "Link" [] [("href", .lit "/signup")] (jl [.textLit "Get started"])]),
             .elem "Button" [] [("asChild", .lit "true")]
               (jl [.elem "Link" [] [("href", .lit "/dashboard")] (jl [.textLit "Dashboard"])])])])])

/-- The body of the dashboard page with the profile dropdown, as a JSX term;
the `DashboardHeader` and `DashboardMain` component calls are kept as
elements. -/
def dashboardPageBody : JsxExpr :=
  .elem "Fragment" [] []
    (jl [.elem "DashboardHeader" [] []
      (jl [.elem "div" ["ml-auto", "flex", "items-center", "space-x-4"] []
        (jl [.dropdownCall dashboardPageUser "bottom"])]),
         .elem "DashboardMain" [] [] (jl [.textLit "Dashboard"])])

/-- The body of the plain dashboard page, as a JSX term. -/
def dashboardPagePlainBody : JsxExpr :=
  .elem "Fragment" [] []
    (jl [.elem "DashboardHeader" [] [] .nil,
         .elem "DashboardMain" [] [] (jl [.textLit "Dashboard"])])


/-! ## Theorems -/

theorem toList_nl (xs : List Node) : (nl xs).toList = xs := by
  induction xs with
  | nil => rfl
  | cons c cs ih => simp [nl, NodeList.toList, ih]

mutual

/-- An error-free JSX body always evaluates to a rendered value. -/
theorem evalJsx_ok (env : RenderEnv) (e : JsxExpr) (h : errorFree e = true) :
    ∃ ns, evalJsx env e = .ok ns :=
  match e with
  | .elem t c a cs => by
      obtain ⟨ns, hns⟩ := evalJsxList_ok env cs (by simpa [errorFree] using h)
      refine ⟨[Node.elem t c (a.map fun p => (p.1, evalAttr env p.2)) (nl ns)], ?_⟩
      simp [evalJsx, hns]
  | .textLit s => ⟨[.text s], by simp [evalJsx]⟩
  | .itemTitleText => ⟨[.text env.item.title], by simp [evalJsx]⟩
  | .itemIconElem => ⟨[.elem env.item.icon [] [] .nil], by simp [evalJsx]⟩
  | .childrenHole => ⟨[env.children], by simp [evalJsx]⟩
  | .dropdownCall u s => ⟨[.profileDropdown u s], by simp [evalJsx]⟩
  | .menuMap body => by
      obtain ⟨ns, hns⟩ := evalMenuMap_ok env env.menu body (by simpa [errorFree] using h)
      exact ⟨ns, by simp [evalJsx, hns]⟩
  | .throwJs m => by simp [errorFree] at h
  | .catchJs body handler => by simp [errorFree] at h
termination_by (sizeOf e, 0)

/-- A list of error-free JSX children always evaluates to a rendered list. -/
theorem evalJsxList_ok (env : RenderEnv) (es : JsxList) (h : errorFreeList es = true) :
    ∃ ns, evalJsxList env es = .ok ns :=
  match es with
  | .nil => ⟨[], by simp [evalJsxList]⟩
  | .cons e rest => by
      rw [errorFreeList, Bool.and_eq_true] at h
      obtain ⟨ns, hns⟩ := evalJsx_ok env e h.1
      obtain ⟨ms, hms⟩ := evalJsxList_ok env rest h.2
      exact ⟨ns ++ ms, by simp [evalJsxList, hns, hms]⟩
termination_by (sizeOf es, 0)

/-- A menu map over an error-free body always evaluates to a rendered
list, for every menu. -/
theorem evalMenuMap_ok (env : RenderEnv) (items : List MenuItem) (body : JsxExpr)
    (h : errorFree body = true) : ∃ ns, evalMenuMap env items body = .ok ns :=
  match items with
  | [] => ⟨[], by simp [evalMenuMap]⟩
  | it :: rest => by
      obtain ⟨ns, hns⟩ := evalJsx_ok { env with item := it } body h
      obtain ⟨ms, hms⟩ := evalMenuMap_ok env rest body h
      exact ⟨ns ++ ms, by simp [evalMenuMap, hns, hms]⟩
termination_by (sizeOf body, items.length + 1)

end

theorem sidebarContentMenuItems_eq (menu : List MenuItem) :
    sidebarContentMenuItems (DashboardSidebarView menu) = menu.map sidebarMenuItemView :=
  toList_nl _

theorem menuItemHref_item (i : MenuItem) :
    menuItemHref (sidebarMenuItemView i) = some i.url := rfl

theorem menuItemLabel_item (i : MenuItem) :
    menuItemLabel (sidebarMenuItemView i) = some i.title := rfl

theorem dropdownCallsOf_item (i : MenuItem) :
    dropdownCallsOf (sidebarMenuItemView i) = [] := rfl

theorem usersOf_item (i : MenuItem) :
    usersOf (sidebarMenuItemView i) = [] := rfl

theorem dropdownCallsOf_menuItems (items : List MenuItem) :
    dropdownCallsOfList (nl (items.map sidebarMenuItemView)) = [] := by
  induction items with
  | nil => rfl
  | cons i is ih => simp [nl, dropdownCallsOfList, dropdownCallsOf_item, ih]

theorem usersOf_menuItems (items : List MenuItem) :
    usersOfList (nl (items.map sidebarMenuItemView)) = [] := by
  induction items with
  | nil => rfl
  | cons i is ih => simp [nl, usersOfList, usersOf_item, ih]

theorem dropdownCallsOf_sidebar (menu : List MenuItem) :
    dropdownCallsOf (DashboardSidebarView menu) = [(sidebarUser, "right")] := by
  simp [DashboardSidebarView, sidebarHeaderView, sidebarFooterView, nl,
    dropdownCallsOf, dropdownCallsOfList, dropdownCallsOf_menuItems]

theorem usersOf_sidebar (menu : List MenuItem) :
    usersOf (DashboardSidebarView menu) = [sidebarUser] := by
  simp [DashboardSidebarView, sidebarHeaderView, sidebarFooterView, nl,
    usersOf, usersOfList, usersOf_menuItems]

/-- C1: for every configured menu, the sidebar's content section renders
exactly one menu item per `DASHBOARD_MENU` entry, in list order, each item
linking to the entry's `url` and labelled with the entry's `title`. -/
theorem claim1_sidebar_menu_render (menu : List MenuItem) :
    (sidebarContentMenuItems (DashboardSidebarView menu)).length = menu.length
    ∧ (sidebarContentMenuItems (DashboardSidebarView menu)).map menuItemHref
        = menu.map (fun i => some i.url)
    ∧ (sidebarContentMenuItems (DashboardSidebarView menu)).map menuItemLabel
        = menu.map (fun i => some i.title) := by
  refine ⟨?_, ?_, ?_⟩
  · rw [sidebarContentMenuItems_eq, List.length_map]
  · rw [sidebarContentMenuItems_eq, List.map_map]
    simp [Function.comp_def, menuItemHref_item]
  · rw [sidebarContentMenuItems_eq, List.map_map]
    simp [Function.comp_def, menuItemLabel_item]

/-- C2, counterexample: with the `className` prop itself containing
`"shadow-sm"`, the rendered class list contains `"shadow-sm"` although
`fixed` is false (and the offset is 0), so the claimed equivalence fails for
that props value. -/
theorem claim2_header_shadow_cex :
    "shadow-sm" ∈ classListOf (DashboardHeaderView false 0 ["shadow-sm"] [])
    ∧ ¬(false = true ∧ 10 < 0) := by
  decide

/-- C2, amended: for every props value whose `className` prop contains
neither `"shadow-sm"` nor `"shadow-none"`, and every offset state, the
header's class list contains `"shadow-sm"` iff `fixed` is truthy and the
offset exceeds 10, and contains `"shadow-none"` exactly otherwise. -/
theorem claim2_header_shadow_amended (fixed : Bool) (offset : Nat)
    (className : List String) (children : List Node)
    (hsm : "shadow-sm" ∉ className) (hsn : "shadow-none" ∉ className) :
    ("shadow-sm" ∈ classListOf (DashboardHeaderView fixed offset className children)
      ↔ fixed = true ∧ 10 < offset)
    ∧ ("shadow-none" ∈ classListOf (DashboardHeaderView fixed offset className children)
      ↔ ¬(fixed = true ∧ 10 < offset)) := by
  refine ⟨?_, ?_⟩ <;>
    (cases fixed <;> by_cases h10 : 10 < offset <;>
      simp [DashboardHeaderView, classListOf, headerClasses, cn, jsAnd, headerShadowClass,
        headerBaseClasses, headerFixedClasses, h10, hsm, hsn])

/-- C2, witness for the amended theorem at `fixed := true`, `offset := 11`,
empty `className`. -/
theorem claim2_header_shadow_amended_witness :
    ("shadow-sm" ∈ classListOf (DashboardHeaderView true 11 [] [])
      ↔ true = true ∧ 10 < 11)
    ∧ ("shadow-none" ∈ classListOf (DashboardHeaderView true 11 [] [])
      ↔ ¬(true = true ∧ 10 < 11)) :=
  claim2_header_shadow_amended true 11 [] [] (by decide) (by decide)

/-- C3: the scroll callback sets the offset state to `body.scrollTop` when
that is non-zero and to `documentElement.scrollTop` otherwise, and performs
no other state update: the resulting state is exactly the new offset,
independent of the previous state. -/
theorem claim3_scroll_callback (doc : DocumentScroll) (s : HeaderState) :
    (doc.bodyScrollTop ≠ 0 → onScroll doc s = { offset := doc.bodyScrollTop })
    ∧ (doc.bodyScrollTop = 0 → onScroll doc s = { offset := doc.documentElementScrollTop })
    ∧ (∀ s', onScroll doc s = onScroll doc s') := by
  refine ⟨fun h => ?_, fun h => ?_, fun _ => rfl⟩ <;> simp [onScroll, jsOrNat, h]

/-- C3, witness at `bodyScrollTop = 5`, `documentElementScrollTop = 7`. -/
theorem claim3_scroll_callback_witness :
    onScroll ⟨5, 7⟩ ⟨0⟩ = { offset := 5 } :=
  (claim3_scroll_callback ⟨5, 7⟩ ⟨0⟩).1 (by decide)

/-- C4: the configuration passed to `NextAuth` has exactly one identity
provider, Google, and its adapter is the `PrismaAdapter` over the shared
prisma client. -/
theorem claim4_auth_config :
    authConfig.providers = [AuthProvider.google]
    ∧ authConfig.providers.length = 1
    ∧ authConfig.adapter = SessionAdapter.prismaAdapter PrismaClientRef.shared :=
  ⟨rfl, rfl, rfl⟩

/-- C5: the only `User` values in the shown render trees are the placeholder
display object with the three fields name, email, avatar; both constructed
copies are equal to it, every occurrence sits in a `ProfileDropdown` call,
and the remaining shown components render no user at all. -/
theorem claim5_placeholder_user (menu : List MenuItem) (offset : Nat) :
    sidebarUser = { name := "John Doe", email := "6Kt0P@example.com",
                    avatar := "https://github.com/brunorocha.png" }
    ∧ dashboardPageUser = sidebarUser
    ∧ usersOf (DashboardSidebarView menu)
        = (dropdownCallsOf (DashboardSidebarView menu)).map Prod.fst
    ∧ usersOf (dashboardPageView offset)
        = (dropdownCallsOf (dashboardPageView offset)).map Prod.fst
    ∧ dropdownCallsOf (DashboardSidebarView menu) = [(sidebarUser, "right")]
    ∧ dropdownCallsOf (dashboardPageView offset) = [(dashboardPageUser, "bottom")]
    ∧ usersOf publicHeaderView = []
    ∧ usersOf (dashboardPagePlainView offset) = [] := by
  refine ⟨rfl, rfl, ?_, rfl, dropdownCallsOf_sidebar menu, rfl, rfl, rfl⟩
  rw [usersOf_sidebar, dropdownCallsOf_sidebar]
  rfl

/-- C6: each route-level `Layout` is a pure forwarding wrapper: the dashboard
route layout returns exactly `DashboardLayout` applied to its children, and
the public route layout returns exactly `PublicLayout` applied to its
children, with no other markup, props, or state. -/
theorem claim6_route_layouts_forward (menu : List MenuItem)
    (publicLayoutRender : Node → Node) (children : Node) :
    routeDashboardLayout menu children = forwardingWrapper (DashboardLayoutView menu) children
    ∧ routePublicLayout publicLayoutRender children = forwardingWrapper publicLayoutRender children :=
  ⟨rfl, rfl⟩

/-- C7: no shown component body contains an error path — each body is
error-free (contains no throw and no try/catch), and consequently each
evaluates to a rendered value, never to an error, in every environment. -/
theorem claim7_no_error_paths :
    (∀ fixed offset className, errorFree (DashboardHeaderBody fixed offset className) = true)
    ∧ errorFree DashboardSidebarBody = true
    ∧ errorFree DashboardLayoutBody = true
    ∧ errorFree PublicHeaderBody = true
    ∧ errorFree routeDashboardLayoutBody = true
    ∧ errorFree routePublicLayoutBody = true
    ∧ errorFree dashboardPageBody = true
    ∧ errorFree dashboardPagePlainBody = true
    ∧ (∀ fixed offset className env,
        ∃ ns, evalJsx env (DashboardHeaderBody fixed offset className) = .ok ns)
    ∧ (∀ env, ∃ ns, evalJsx env DashboardSidebarBody = .ok ns)
    ∧ (∀ env, ∃ ns, evalJsx env DashboardLayoutBody = .ok ns)
    ∧ (∀ env, ∃ ns, evalJsx env PublicHeaderBody = .ok ns)
    ∧ (∀ env, ∃ ns, evalJsx env routeDashboardLayoutBody = .ok ns)
    ∧ (∀ env, ∃ ns, evalJsx env routePublicLayoutBody = .ok ns)
    ∧ (∀ env, ∃ ns, evalJsx env dashboardPageBody = .ok ns)
    ∧ (∀ env, ∃ ns, evalJsx env dashboardPagePlainBody = .ok ns) :=
  ⟨fun _ _ _ => rfl, rfl, rfl, rfl, rfl, rfl, rfl, rfl,
   fun _ _ _ env => evalJsx_ok env _ rfl,
   fun env => evalJsx_ok env _ rfl,
   fun env => evalJsx_ok env _ rfl,
   fun env => evalJsx_ok env _ rfl,
   fun env => evalJsx_ok env _ rfl,
   fun env => evalJsx_ok env _ rfl,
   fun env => evalJsx_ok env _ rfl,
   fun env => evalJsx_ok env _ rfl⟩

/-- C8, counterexample: at the initial offset (0), a `className` prop that
itself contains `"shadow-sm"` puts `"shadow-sm"` in the class list even
before any scroll event, so the claimed absence fails for that props
value. -/
theorem claim8_initial_shadow_cex :
    initialHeaderState.offset = 0
    ∧ "shadow-sm" ∈ classListOf
        (DashboardHeaderView true initialHeaderState.offset ["shadow-sm"] []) := by
  decide

/-- C8, amended: the initial offset state is 0, so for every props value
whose `className` prop does not contain `"shadow-sm"` (including `fixed`
true), the header's class list contains `"shadow-none"` and not
`"shadow-sm"` until the first scroll event is processed. -/
theorem claim8_initial_shadow_amended (fixed : Bool) (className : List String)
    (children : List Node) (hsm : "shadow-sm" ∉ className) :
    initialHeaderState.offset = 0
    ∧ "shadow-none" ∈ classListOf
        (DashboardHeaderView fixed initialHeaderState.offset className children)
    ∧ "shadow-sm" ∉ classListOf
        (DashboardHeaderView fixed initialHeaderState.offset className children) := by
  refine ⟨rfl, ?_, ?_⟩ <;>
    (cases fixed <;>
      simp [DashboardHeaderView, classListOf, headerClasses, cn, jsAnd, headerShadowClass,
        headerBaseClasses, headerFixedClasses, initialHeaderState, hsm])

/-- C8, witness for the amended theorem at `fixed := true`, empty
`className`. -/
theorem claim8_initial_shadow_amended_witness :
    initialHeaderState.offset = 0
    ∧ "shadow-none" ∈ classListOf (DashboardHeaderView true initialHeaderState.offset [] [])
    ∧ "shadow-sm" ∉ classListOf (DashboardHeaderView true initialHeaderState.offset [] []) :=
  claim8_initial_shadow_amended true [] [] (by decide)

/-- C9: the mount effect registers exactly one `"scroll"` listener (the
fresh `onScroll` closure), and the returned cleanup removes that same
handler, leaving the document's listener list exactly as it was before the
mount. -/
theorem claim9_scroll_listener_cycle (ls : List Listener) (h : Nat)
    (hfresh : Listener.mk "scroll" h ∉ ls) :
    (headerMountEffect ls h).length = ls.length + 1
    ∧ Listener.mk "scroll" h ∈ headerMountEffect ls h
    ∧ headerMountCleanup (headerMountEffect ls h) h = ls := by
  unfold headerMountEffect headerMountCleanup addEventListener removeEventListener
  rw [if_neg hfresh]
  refine ⟨by simp, by simp, ?_⟩
  rw [List.erase_append_right _ hfresh]
  simp

/-- C9, witness for a mount/unmount cycle on an empty listener list with
handler 0. -/
theorem claim9_scroll_listener_cycle_witness :
    (headerMountEffect [] 0).length = ([] : List Listener).length + 1
    ∧ Listener.mk "scroll" 0 ∈ headerMountEffect [] 0
    ∧ headerMountCleanup (headerMountEffect [] 0) 0 = [] :=
  claim9_scroll_listener_cycle [] 0 (by decide)

/-- C10: the user passed to `ProfileDropdown` by the sidebar footer and the
user passed by the dashboard page header agree field for field, and the two
call sites differ only in the `side` prop: `"right"` versus `"bottom"`. -/
theorem claim10_profile_dropdown_sites (offset : Nat) :
    dropdownCallsOf sidebarFooterView = [(sidebarUser, "right")]
    ∧ dropdownCallsOf (dashboardPageHeaderView offset) = [(dashboardPageUser, "bottom")]
    ∧ sidebarUser.name = dashboardPageUser.name
    ∧ sidebarUser.email = dashboardPageUser.email
    ∧ sidebarUser.avatar = dashboardPageUser.avatar
    ∧ ("right" : String) ≠ "bottom" :=
  ⟨rfl, rfl, rfl, rfl, rfl, by decide⟩

end SaasStarter
